import Mathlib

/-!
# Ownership Validator — verification of the specification against the code

A shallow embedding of `src/ownership_validator.py`, `backend/server.py`
and `backend/models.py`, together with spec-modelled definitions for the
parts of the repository (directory-mode exploration agent) and the library
components (SentenceSplitter chunker, BM25 sparse retriever) whose
implementations are not present under `src/`.

External effects (environment variables, filesystem, the language model)
are modelled by an explicit `Env` record; each Python function becomes a
Lean function returning `Except ExitReason α` (Python `sys.exit(1)` sites
become distinct `ExitReason` constructors) paired with an ordered trace of
observable events (`Ev`), so that claims about "before any filesystem
access" or "no model call" are statements about the trace.
-/

/-- Helper for `basename`: keep the characters after the last `/`. -/
def basenameAux : List Char → List Char → List Char
  | [], acc => acc.reverse
  | c :: cs, acc => if c = '/' then basenameAux cs [] else basenameAux cs (c :: acc)

/-- Embedding of `os.path.basename` for `/`-separated paths, as used by
the source. -/
def basename (p : String) : String :=
  String.mk (basenameAux p.toList [])

/-- The `"=" * 40` banner line printed by `generate_quiz`. -/
def bar : String := String.mk (List.replicate 40 '=')

def DEFAULT_LLM_MODEL : String := "z-ai/glm-4.7-flash:free"

def DEFAULT_BASE_URL : String := "https://openrouter.ai/api/v1"

/-- Script-relative path of the prompt file built by `load_prompts`. -/
def promptPath : String := "prompts/ownership_validator.yaml"

/-- The configuration that `setup_llama_index` stores into the global
`Settings.llm` (model name, api key, api base; the fixed 360s timeout is
constant and omitted). -/
structure LLMConfig where
  model : String
  apiKey : String
  apiBase : String
deriving DecidableEq, Repr

/-- The process-global mutable `llama_index.core.Settings` object, as far as
the source touches it (`Settings.llm`, `Settings.embed_model`). -/
structure LlamaSettings where
  llm : Option LLMConfig
  embedModel : Option String
deriving DecidableEq, Repr

/-- A fresh process state: nothing configured yet. -/
def initSettings : LlamaSettings := ⟨none, none⟩

/-- The distinct `sys.exit(1)` sites of the source, by their printed message.
The taxonomy of the spec maps onto them: `ConfigurationError` covers
`missingApiKey`, `promptFileNotFound`, `promptReadError`, `missingPromptKey`;
`NotFoundError` is `fileNotFound`; `ReadError` is `fileReadError`. -/
inductive ExitReason where
  | missingApiKey
  | promptFileNotFound
  | promptReadError
  | fileNotFound
  | fileReadError
  | missingPromptKey
deriving DecidableEq, Repr

/-- Observable events, in program order. `fsExists`/`fsRead`/`fsList` are
filesystem accesses, `bm25Index` is the retrieval-index build, `modelCall`
is the single quiz-producing language-model completion (carrying the
`Settings.llm` configuration in effect and the prompt), `printOut` is a
`print` to standard output. -/
inductive Ev where
  | fsExists (p : String)
  | fsRead (p : String)
  | fsList (p : String)
  | bm25Index
  | modelCall (llm : Option LLMConfig) (prompt : String)
  | printOut (s : String)
deriving DecidableEq, Repr

def isFsEvent : Ev → Bool
  | .fsExists _ => true
  | .fsRead _ => true
  | .fsList _ => true
  | _ => false

def isModelCall : Ev → Bool
  | .modelCall _ _ => true
  | _ => false

/-- The external world: environment variables (`""` stands for unset or
empty, both falsy in the Python source), the filesystem, the parsed prompt
file, and the reply of the language model to the final prompt. -/
structure Env where
  envApiKey : String
  envBaseUrl : String
  fileExists : String → Bool
  isDirectory : String → Bool
  readFile : String → Option String
  listDir : String → Option (List (String × Bool))
  promptFileExists : Bool
  promptLoad : Option (String → Option String)
  llmRespond : String → String

/-- Embedding of `setup_llama_index(llm_model, embedding_model, api_key,
base_url)`: falls back to `LLM_API_KEY` / `LLM_BASE_URL` env vars, exits
when no key is available, otherwise overwrites the global `Settings`. -/
def setup_llama_index (env : Env) (llm_model embedding_model api_key base_url : String)
    (_st : LlamaSettings) : Except ExitReason LlamaSettings × List Ev :=
  let evs := [Ev.printOut ("Setting up Llama Index with LLM=" ++ llm_model ++
    " and Embeddings=" ++ embedding_model ++ "...")]
  let ak := if api_key = "" then env.envApiKey else api_key
  let bu := if base_url = "" then
      (if env.envBaseUrl = "" then DEFAULT_BASE_URL else env.envBaseUrl)
    else base_url
  if ak = "" then
    (.error .missingApiKey,
      evs ++ [Ev.printOut "Error: LLM_API_KEY not found in environment variables or arguments."])
  else
    (.ok { llm := some ⟨llm_model, ak, bu⟩, embedModel := none }, evs)

/-- Embedding of `load_prompts()`: checks the prompt file exists, then
parses it with `yaml.safe_load`; either failure is a `sys.exit(1)`. -/
def load_prompts (env : Env) : Except ExitReason (String → Option String) × List Ev :=
  if ¬ env.promptFileExists then
    (.error .promptFileNotFound,
      [Ev.fsExists promptPath,
       Ev.printOut ("Error: Prompt file not found at " ++ promptPath)])
  else
    match env.promptLoad with
    | none =>
        (.error .promptReadError,
          [Ev.fsExists promptPath, Ev.fsRead promptPath,
           Ev.printOut "Error reading prompt file: <exception>"])
    | some m => (.ok m, [Ev.fsExists promptPath, Ev.fsRead promptPath])

/-! ## Chunker and sparse retriever

The source calls `SentenceSplitter(chunk_size=1024, chunk_overlap=20)` and
`BM25Retriever.from_defaults(nodes=nodes, similarity_top_k=10)`; those
implementations are library code not present under `src/`, so they are
modelled from the spec (§4.2 Chunker, §4.3 Sparse Retriever). -/

/-- A chunk as in the spec data model: source identifier, text, 0-based
ordinal. -/
structure Chunk where
  sourceIdentifier : String
  text : String
  ordinal : Nat
deriving DecidableEq, Repr

/-- Modelled from the spec: fixed-size windowing with overlap (§4.2) over a
character sequence; the implementation (llama_index `SentenceSplitter`) is
not under `src/`.  A text no longer than `cs` yields a single window; the
degenerate `cs ≤ ov` configuration also yields one window so the function
is total. -/
def windows (cs ov : Nat) (s : List Char) : List (List Char) :=
  if s.length ≤ cs ∨ cs ≤ ov then [s]
  else s.take cs :: windows cs ov (s.drop (cs - ov))
termination_by s.length
decreasing_by
  simp only [List.length_drop]
  omega

/-- Modelled from the spec: the Chunker (§4.2) — splits one TextUnit into
ordered chunks carrying the source identifier and 0-based ordinals. -/
def chunkTextUnit (cs ov : Nat) (srcId : String) (content : String) : List Chunk :=
  (windows cs ov content.toList).enum.map fun p => ⟨srcId, String.mk p.2, p.1⟩

/-- Helper for `tokenize`: split a character list on spaces, dropping
empty words; `acc` holds the current word reversed. -/
def wordsAux : List Char → List Char → List String
  | [], acc => if acc.isEmpty then [] else [String.mk acc.reverse]
  | c :: cs, acc =>
      if c = ' ' then
        if acc.isEmpty then wordsAux cs [] else String.mk acc.reverse :: wordsAux cs []
      else wordsAux cs (c :: acc)

/-- Whitespace tokenisation of chunk text for lexical scoring. -/
def tokenize (s : String) : List String :=
  wordsAux s.toList []

/-- Term frequency of `t` in a chunk. -/
def tf (t : String) (c : Chunk) : Nat :=
  (tokenize c.text).count t

/-- Document frequency of `t` over a corpus of chunks. -/
def df (t : String) (corpus : List Chunk) : Nat :=
  corpus.countP (fun c => tf t c != 0)

/-- Modelled from the spec: inverse-document-frequency-style rarity weight
(§4.3) — positive exactly when the term occurs somewhere, larger for rarer
terms. -/
def idf (corpus : List Chunk) (t : String) : ℚ :=
  if df t corpus = 0 then 0 else ((corpus.length : ℚ) + 1) / (df t corpus : ℚ)

def chunkLen (c : Chunk) : Nat := (tokenize c.text).length

/-- Modelled from the spec: the scoring function of the Sparse Retriever (§4.3)
— term-frequency times rarity weight, penalised by chunk length; the exact
probabilistic ranking function of the library (BM25) is not under `src/`
and the spec does not reproduce it verbatim. -/
def score (corpus : List Chunk) (q : List String) (c : Chunk) : ℚ :=
  (q.map fun t => idf corpus t * (tf t c : ℚ) / ((chunkLen c : ℚ) + 1)).sum

/-- Ranking order: descending score, ties broken by ascending ordinal
(§4.3 determinism clause). -/
def rankLe (corpus : List Chunk) (q : List String) (a b : Chunk) : Prop :=
  score corpus q b < score corpus q a ∨
    (score corpus q a = score corpus q b ∧ a.ordinal ≤ b.ordinal)

instance (corpus : List Chunk) (q : List String) : DecidableRel (rankLe corpus q) :=
  fun a b => by unfold rankLe; infer_instance

instance rankLe_total (corpus : List Chunk) (q : List String) :
    IsTotal Chunk (rankLe corpus q) where
  total a b := by
    unfold rankLe
    rcases lt_trichotomy (score corpus q a) (score corpus q b) with h | h | h
    · exact Or.inr (Or.inl h)
    · rcases Nat.le_total a.ordinal b.ordinal with ho | ho
      · exact Or.inl (Or.inr ⟨h, ho⟩)
      · exact Or.inr (Or.inr ⟨h.symm, ho⟩)
    · exact Or.inl (Or.inl h)

instance rankLe_trans (corpus : List Chunk) (q : List String) :
    IsTrans Chunk (rankLe corpus q) where
  trans a b c hab hbc := by
    unfold rankLe at *
    rcases hab with h1 | ⟨h1, o1⟩
    · rcases hbc with h2 | ⟨h2, _⟩
      · exact Or.inl (h2.trans h1)
      · exact Or.inl (h2 ▸ h1)
    · rcases hbc with h2 | ⟨h2, o2⟩
      · exact Or.inl (h1 ▸ h2)
      · exact Or.inr ⟨h1.trans h2, o1.trans o2⟩

/-- Modelled from the spec: the Sparse Retriever query step (§4.3) — all
chunks sorted by descending score with ascending-ordinal tie-break, then
the top `K` taken; an empty corpus yields an empty result. -/
def retrieve (corpus : List Chunk) (q : List String) (K : Nat) : List Chunk :=
  (List.insertionSort (rankLe corpus q) corpus).take K

/-! ## The `generate_quiz` pipeline and the two entry points -/

/-- Embedding of `generate_quiz(file_path, model_name, api_key)`:
existence check, file read, optional `setup_llama_index` when an api key
was passed directly (e.g. from the server), chunking, BM25 indexing,
prompt loading, and one query-engine call, followed by the banner-framed
print of the quiz.  Python falsiness of `api_key` and `model_name`
(`if api_key:` and `model_name or DEFAULT_LLM_MODEL`) is `= ""`. -/
def generate_quiz (env : Env) (file_path model_name api_key : String)
    (st : LlamaSettings) : Except ExitReason LlamaSettings × List Ev :=
  let evs0 := [Ev.fsExists file_path]
  if ¬ env.fileExists file_path then
    (.error .fileNotFound,
      evs0 ++ [Ev.printOut ("Error: File " ++ file_path ++ " not found.")])
  else
    let evs1 := evs0 ++ [Ev.printOut ("Reading file: " ++ file_path), Ev.fsRead file_path]
    match env.readFile file_path with
    | none =>
        (.error .fileReadError, evs1 ++ [Ev.printOut "Error reading file: <exception>"])
    | some content =>
      let setupRes :=
        if api_key = "" then (Except.ok st, ([] : List Ev))
        else setup_llama_index env
          (if model_name = "" then DEFAULT_LLM_MODEL else model_name) "" api_key "" st
      match setupRes with
      | (.error e, evsS) => (.error e, evs1 ++ evsS)
      | (.ok st1, evsS) =>
        let nodes := chunkTextUnit 1024 20 (basename file_path) content
        let evs2 := evs1 ++ evsS ++ [Ev.printOut "Indexing content with BM25...", Ev.bm25Index]
        match load_prompts env with
        | (.error e, evsP) => (.error e, evs2 ++ evsP)
        | (.ok prompts, evsP) =>
          match prompts "quiz_generation_prompt" with
          | none =>
              (.error .missingPromptKey, evs2 ++ evsP ++
                [Ev.printOut "Error: quiz_generation_prompt not found in prompt file."])
          | some prompt =>
            if prompt = "" then
              (.error .missingPromptKey, evs2 ++ evsP ++
                [Ev.printOut "Error: quiz_generation_prompt not found in prompt file."])
            else
              let _retrieved := retrieve nodes (tokenize prompt) 10
              let resp := env.llmRespond prompt
              (.ok st1, evs2 ++ evsP ++
                [Ev.printOut "Generating quiz (this may take a minute)...",
                 Ev.modelCall st1.llm prompt,
                 Ev.printOut ("\n" ++ bar),
                 Ev.printOut ("OWNERSHIP QUIZ FOR: " ++ basename file_path),
                 Ev.printOut (bar ++ "\n"),
                 Ev.printOut resp,
                 Ev.printOut ("\n" ++ bar)])

/-- Embedding of the CLI `main()`: parse arguments (argparse supplies
`DEFAULT_LLM_MODEL` when `--model` is omitted; omitted `--api-key` /
`--base-url` are `""`), then `setup_llama_index`, then `generate_quiz`. -/
def cliMain (env : Env) (file model embedding api_key base_url : String) :
    Except ExitReason LlamaSettings × List Ev :=
  match setup_llama_index env model embedding api_key base_url initSettings with
  | (.error e, evs) => (.error e, evs)
  | (.ok st1, evs) =>
    let r := generate_quiz env file model api_key st1
    (r.1, evs ++ r.2)

/-- Embedding of `backend/models.py` `ServerRequest`. -/
structure ServerRequest where
  file_path : String
  user_name : String
  model_name : String
  api_key : String
deriving DecidableEq, Repr

/-- Embedding of `backend/server.py` `read_root`: run `generate_quiz` on
the fields of the request, then return the request itself as the response body.
A `sys.exit(1)` inside `generate_quiz` aborts the handler, so no echo
response is produced on the error path. -/
def read_root (env : Env) (request : ServerRequest) (st : LlamaSettings) :
    Except ExitReason (ServerRequest × LlamaSettings) × List Ev :=
  match generate_quiz env request.file_path request.model_name request.api_key st with
  | (.error e, evs) => (.error e, evs)
  | (.ok st1, evs) => (.ok (request, st1), evs)

/-! ## Directory-mode exploration agent (spec-modelled)

The spec (§2, §4.4, §9) describes a second, directory-mode implementation
of `generate_quiz` — an exploration agent over `list_directory` /
`read_file` tools — and a caller that selects the pipeline by target type.
That code is part of this repository but is not present under `src/`
(the spec counts ~299 source lines; `src/` holds ~160), so it is modelled
from the spec here. -/

/-- The two statically enumerated tools of the Content Loader (§4.1, §9). -/
inductive ToolName where
  | list_directory
  | read_file
deriving DecidableEq, Repr

/-- Modelled from the spec: an action chosen by the model at a Reasoning
state (§4.4) — either a tool call or the final answer. -/
inductive AgentAction where
  | callTool (tool : ToolName) (arg : String)
  | finish (answer : String)
deriving Repr

/-- One transcript record: thought, optional tool invocation and its
observation (§3 AgentTranscript). -/
structure TranscriptStep where
  tool : ToolName
  arg : String
  observation : String
deriving DecidableEq, Repr

/-- Modelled from the spec: executing one tool call via the Content Loader
(§4.1); a failure becomes an error observation string rather than an
abort (§4.4 tool argument validation). -/
def runTool (env : Env) (t : ToolName) (arg : String) : String × List Ev :=
  match t with
  | .list_directory =>
      (match env.listDir arg with
        | none => "ToolExecutionError: cannot list directory"
        | some entries => String.intercalate "\n" (entries.map Prod.fst),
       [Ev.fsList arg])
  | .read_file =>
      (match env.readFile arg with
        | none => "ToolExecutionError: cannot read file"
        | some s => s,
       [Ev.fsRead arg])

/-- Modelled from the spec: the Exploration Agent loop (§4.4) — a bounded
alternation of Reasoning → ToolCall → Observing steps driven by a model
policy, ending with a final answer (or, at the mandatory iteration cap,
the empty answer).  Returns the transcript, the final answer and the
events produced by tool execution. -/
def agentLoop (env : Env) (policy : List TranscriptStep → AgentAction)
    (fuel : Nat) (transcript : List TranscriptStep) :
    List TranscriptStep × String × List Ev :=
  match fuel with
  | 0 => (transcript, "", [])
  | fuel' + 1 =>
    match policy transcript with
    | .finish answer => (transcript, answer, [])
    | .callTool t arg =>
      let r := runTool env t arg
      let rest := agentLoop env policy fuel' (transcript ++ [⟨t, arg, r.1⟩])
      (rest.1, rest.2.1, r.2 ++ rest.2.2)

/-- Modelled from the spec: the directory-mode `generate_quiz` variant —
seed the agent with the quiz instruction and target path, run the bounded
exploration loop, then merge the accumulated transcript with the template
for one model invocation (§2, §4.5). -/
def generate_quiz_dir (env : Env) (dir_path : String)
    (policy : List TranscriptStep → AgentAction) (fuel : Nat)
    (st : LlamaSettings) : Except ExitReason LlamaSettings × List Ev :=
  match load_prompts env with
  | (.error e, evsP) => (.error e, evsP)
  | (.ok prompts, evsP) =>
    match prompts "quiz_generation_prompt" with
    | none => (.error .missingPromptKey, evsP)
    | some prompt =>
      let r := agentLoop env policy fuel []
      let mergedPrompt := prompt ++ "\n" ++ dir_path ++ "\n" ++
        String.intercalate "\n" (r.1.map TranscriptStep.observation)
      (.ok st, evsP ++ r.2.2 ++ [Ev.modelCall st.llm mergedPrompt])

/-- Modelled from the spec: the caller that selects file-mode or
directory-mode by target type (§2 control flow); the selection code is not
under `src/`. -/
def generate_quiz_dispatch (env : Env) (target model_name api_key : String)
    (policy : List TranscriptStep → AgentAction) (fuel : Nat)
    (st : LlamaSettings) : Except ExitReason LlamaSettings × List Ev :=
  if env.isDirectory target then
    generate_quiz_dir env target policy fuel st
  else
    generate_quiz env target model_name api_key st

/-! ## Concrete test environments -/

/-- A concrete environment whose target file exists but cannot be read. -/
def unreadableEnv : Env where
  envApiKey := ""
  envBaseUrl := ""
  fileExists := fun _ => true
  isDirectory := fun _ => false
  readFile := fun _ => none
  listDir := fun _ => none
  promptFileExists := true
  promptLoad := some fun _ => none
  llmRespond := fun _ => ""

/-- A concrete environment with a readable target but no prompt file. -/
def noPromptEnv : Env where
  envApiKey := "k"
  envBaseUrl := ""
  fileExists := fun _ => true
  isDirectory := fun _ => false
  readFile := fun _ => some "print(1)"
  listDir := fun _ => none
  promptFileExists := false
  promptLoad := none
  llmRespond := fun _ => ""

/-- A concrete healthy environment: the target file exists and is
readable, the prompt file parses, the model replies with a fixed quiz
text, and no API key is present in the environment. -/
def happyEnv : Env where
  envApiKey := ""
  envBaseUrl := ""
  fileExists := fun p => p == "proj/code.py"
  isDirectory := fun _ => false
  readFile := fun p => if p == "proj/code.py" then some "def add(a, b): return a + b" else none
  listDir := fun _ => none
  promptFileExists := true
  promptLoad := some fun k => if k == "quiz_generation_prompt" then some "PROMPT" else none
  llmRespond := fun _ => "QUIZ_TEXT_42"

/-- A concrete environment whose target is a directory: `os.path.exists`
succeeds, but `open()` fails (`IsADirectoryError`), while the directory
listing succeeds. -/
def dirEnv : Env where
  envApiKey := "k"
  envBaseUrl := ""
  fileExists := fun p => p == "repo"
  isDirectory := fun p => p == "repo"
  readFile := fun _ => none
  listDir := fun p => if p == "repo" then some [("a.py", false)] else none
  promptFileExists := true
  promptLoad := some fun k => if k == "quiz_generation_prompt" then some "PROMPT" else none
  llmRespond := fun _ => "QUIZ"

/-! ## Helper lemmas for the chunker and retriever -/

lemma score_single_of_tf_zero (corpus : List Chunk) (t : String) (c : Chunk)
    (h : tf t c = 0) : score corpus [t] c = 0 := by
  simp [score, h]

lemma score_single_pos (corpus : List Chunk) (t : String) (c : Chunk)
    (hc : c ∈ corpus) (h : tf t c ≠ 0) : 0 < score corpus [t] c := by
  have hdf : 0 < df t corpus := by
    unfold df
    exact List.countP_pos_iff.mpr ⟨c, hc, by simpa using h⟩
  have hidf : 0 < idf corpus t := by
    unfold idf
    rw [if_neg (Nat.pos_iff_ne_zero.mp hdf)]
    apply div_pos
    · positivity
    · exact_mod_cast hdf
  have htf : (0 : ℚ) < (tf t c : ℚ) := by
    exact_mod_cast Nat.pos_of_ne_zero h
  have hden : (0 : ℚ) < (chunkLen c : ℚ) + 1 := by positivity
  simp only [score, List.map_cons, List.map_nil, List.sum_cons, List.sum_nil, add_zero]
  exact div_pos (mul_pos hidf htf) hden

lemma retrieve_pairwise (corpus : List Chunk) (q : List String) (K : Nat) :
    (retrieve corpus q K).Pairwise (rankLe corpus q) := by
  unfold retrieve
  exact List.Pairwise.sublist (List.take_sublist K _)
    (List.sorted_insertionSort (rankLe corpus q) corpus)

lemma retrieve_sublist_sorted (corpus : List Chunk) (q : List String) (K : Nat) :
    (retrieve corpus q K).Sublist (List.insertionSort (rankLe corpus q) corpus) :=
  List.take_sublist K _

/-! ## Claims C5 and C6 -/

/-- C5: for every text input whose length is less than `chunkSize` (default
1024, overlap default 20), the Chunker produces exactly one chunk whose
text equals the whole input (ordinal 0, carrying the source identifier). -/
theorem C5_chunker_short_input (srcId s : String) (h : s.length < 1024) :
    chunkTextUnit 1024 20 srcId s = [⟨srcId, s, 0⟩] := by
  have hl : s.toList.length ≤ 1024 := by
    have he : s.toList.length = s.length := rfl
    omega
  unfold chunkTextUnit
  rw [windows, if_pos (Or.inl hl)]
  simp [List.enum]

/-- Witness for C5 at a concrete input. -/
theorem C5_chunker_short_input_witness :
    ("def f(): pass" : String).length < 1024 ∧
      chunkTextUnit 1024 20 "f.py" "def f(): pass" = [⟨"f.py", "def f(): pass", 0⟩] :=
  ⟨by decide, C5_chunker_short_input "f.py" "def f(): pass" (by decide)⟩

/-- C6: the Sparse Retriever over an empty chunk sequence returns an empty
result for every query (it is a total function, never an error), and over
a corpus with fewer than K chunks it returns all of them — a permutation
of the corpus, hence fewer than K results. -/
theorem C6_retriever_empty_and_undersized :
    (∀ (q : List String) (K : Nat), retrieve [] q K = []) ∧
    (∀ (corpus : List Chunk) (q : List String) (K : Nat), corpus.length < K →
      (retrieve corpus q K).Perm corpus ∧ (retrieve corpus q K).length < K) := by
  constructor
  · intro q K
    simp [retrieve, List.insertionSort]
  · intro corpus q K h
    have hlen : (List.insertionSort (rankLe corpus q) corpus).length = corpus.length :=
      List.length_insertionSort _ _
    have htake : retrieve corpus q K = List.insertionSort (rankLe corpus q) corpus := by
      unfold retrieve
      exact List.take_of_length_le (by omega)
    refine ⟨?_, ?_⟩
    · rw [htake]
      exact List.perm_insertionSort _ _
    · rw [htake, hlen]
      exact h

/-- Witness for C6 at concrete inputs. -/
theorem C6_retriever_empty_and_undersized_witness :
    retrieve [] ["q"] 10 = [] ∧
      (([⟨"f", "a b", 0⟩, ⟨"f", "b c", 1⟩] : List Chunk).length < 10 ∧
        (retrieve [⟨"f", "a b", 0⟩, ⟨"f", "b c", 1⟩] ["b"] 10).Perm
          [⟨"f", "a b", 0⟩, ⟨"f", "b c", 1⟩] ∧
        (retrieve [⟨"f", "a b", 0⟩, ⟨"f", "b c", 1⟩] ["b"] 10).length < 10) :=
  ⟨C6_retriever_empty_and_undersized.1 ["q"] 10,
   by decide,
   C6_retriever_empty_and_undersized.2 _ ["b"] 10 (by decide)⟩

/-! ## Claim C7 -/

/-- C7: for every chunk corpus and every single-term query whose term
occurs in exactly one chunk, the Sparse Retriever ranks that chunk first;
and whenever two chunks of the result receive equal scores, the one with
the smaller ordinal is ordered first (given the chunker invariant of
distinct ordinals), making results deterministic. -/
theorem C7_retriever_unique_term_first_and_tiebreak :
    (∀ (corpus : List Chunk) (t : String) (c : Chunk) (K : Nat), 0 < K →
        c ∈ corpus → tf t c ≠ 0 → (∀ c' ∈ corpus, c' ≠ c → tf t c' = 0) →
        (retrieve corpus [t] K).head? = some c) ∧
    (∀ (corpus : List Chunk) (q : List String) (K : Nat),
        (corpus.map Chunk.ordinal).Nodup →
        (retrieve corpus q K).Pairwise
          (fun a b => score corpus q a = score corpus q b →
            a.ordinal < b.ordinal)) := by
  constructor
  · intro corpus t c K hK hc htf hu
    have hperm := List.perm_insertionSort (rankLe corpus [t]) corpus
    have hsorted := List.sorted_insertionSort (rankLe corpus [t]) corpus
    have hcmem : c ∈ List.insertionSort (rankLe corpus [t]) corpus :=
      hperm.mem_iff.mpr hc
    obtain ⟨h, tl, heq⟩ : ∃ h tl,
        List.insertionSort (rankLe corpus [t]) corpus = h :: tl := by
      cases hs : List.insertionSort (rankLe corpus [t]) corpus with
      | nil => rw [hs] at hcmem; simp at hcmem
      | cons a l => exact ⟨a, l, rfl⟩
    have hhead : (retrieve corpus [t] K).head? = some h := by
      unfold retrieve
      rw [heq, List.head?_take, if_neg (Nat.pos_iff_ne_zero.mp hK)]
      rfl
    have hh : h = c := by
      by_contra hne
      have hcl : c ∈ tl := by
        rw [heq] at hcmem
        rcases List.mem_cons.mp hcmem with h1 | h1
        · exact absurd h1.symm hne
        · exact h1
      rw [heq, List.sorted_cons] at hsorted
      have hrel := hsorted.1 c hcl
      have hmem_h : h ∈ corpus := hperm.mem_iff.mp (heq ▸ List.mem_cons_self h tl)
      have hscoreh : score corpus [t] h = 0 :=
        score_single_of_tf_zero _ _ _ (hu h hmem_h hne)
      have hscorec : 0 < score corpus [t] c := score_single_pos _ _ _ hc htf
      rcases hrel with hlt | ⟨heqs, _⟩
      · rw [hscoreh] at hlt
        exact absurd hlt (not_lt.mpr hscorec.le)
      · rw [hscoreh] at heqs
        exact (ne_of_gt hscorec) heqs.symm
    exact hh ▸ hhead
  · intro corpus q K hnd
    have hcp : corpus.Pairwise (fun a b => a.ordinal ≠ b.ordinal) := by
      simpa [List.Nodup, List.pairwise_map] using hnd
    have hsp : (List.insertionSort (rankLe corpus q) corpus).Pairwise
        (fun a b => a.ordinal ≠ b.ordinal) :=
      (List.Perm.pairwise_iff (fun hab => Ne.symm hab)
        (List.perm_insertionSort (rankLe corpus q) corpus)).mpr hcp
    have hrp : (retrieve corpus q K).Pairwise (fun a b => a.ordinal ≠ b.ordinal) :=
      List.Pairwise.sublist (retrieve_sublist_sorted corpus q K) hsp
    have hrank := retrieve_pairwise corpus q K
    refine List.Pairwise.imp (fun hab hs => ?_) (hrank.and hrp)
    rcases hab.1 with hlt | ⟨_, hle⟩
    · rw [hs] at hlt
      exact absurd hlt (lt_irrefl _)
    · exact lt_of_le_of_ne hle hab.2

/-- Witness for C7 at concrete inputs: the term `widget` occurs only in
the second chunk, which is ranked first; a two-chunk corpus with distinct
ordinals satisfies the tie-break ordering. -/
theorem C7_retriever_unique_term_first_and_tiebreak_witness :
    (retrieve [⟨"f", "alpha beta", 0⟩, ⟨"f", "widget gamma", 1⟩] ["widget"] 10).head? =
        some ⟨"f", "widget gamma", 1⟩ ∧
      (retrieve [⟨"f", "alpha beta", 0⟩, ⟨"f", "widget gamma", 1⟩] ["zzz"] 10).Pairwise
        (fun a b => score [⟨"f", "alpha beta", 0⟩, ⟨"f", "widget gamma", 1⟩] ["zzz"] a =
            score [⟨"f", "alpha beta", 0⟩, ⟨"f", "widget gamma", 1⟩] ["zzz"] b →
          a.ordinal < b.ordinal) :=
  ⟨C7_retriever_unique_term_first_and_tiebreak.1
      [⟨"f", "alpha beta", 0⟩, ⟨"f", "widget gamma", 1⟩] "widget"
      ⟨"f", "widget gamma", 1⟩ 10 (by decide) (by decide) (by decide) (by decide),
    C7_retriever_unique_term_first_and_tiebreak.2
      [⟨"f", "alpha beta", 0⟩, ⟨"f", "widget gamma", 1⟩] ["zzz"] 10 (by decide)⟩

/-! ## Claims C8, C9, C10 -/

/-- C8: for every file path whose content cannot be read or decoded,
`generate_quiz` fails with a `ReadError` (`sys.exit(1)` at the read
handler) and performs no language-model call. -/
theorem C8_read_error_no_model_call (env : Env) (fp mn ak : String) (st : LlamaSettings)
    (hex : env.fileExists fp = true) (hread : env.readFile fp = none) :
    (generate_quiz env fp mn ak st).1 = .error .fileReadError ∧
      ∀ e ∈ (generate_quiz env fp mn ak st).2, isModelCall e = false := by
  simp [generate_quiz, hex, hread, isModelCall]


/-- Witness for C8 at a concrete input. -/
theorem C8_read_error_no_model_call_witness :
    unreadableEnv.fileExists "bad.py" = true ∧ unreadableEnv.readFile "bad.py" = none ∧
      ((generate_quiz unreadableEnv "bad.py" "" "" initSettings).1 = .error .fileReadError ∧
        ∀ e ∈ (generate_quiz unreadableEnv "bad.py" "" "" initSettings).2,
          isModelCall e = false) :=
  ⟨rfl, rfl, C8_read_error_no_model_call unreadableEnv "bad.py" "" "" initSettings rfl rfl⟩

/-- C9: for every invocation (the common `generate_quiz` path of both the
CLI and HTTP entry points, reaching the prompt-loading step) in which the
prompt template file is missing, or the template lacks the required
`quiz_generation_prompt` key, the run exits with the corresponding fatal
configuration error and no language-model call is issued. -/
theorem C9_missing_prompt_fatal_no_model_call (env : Env) (fp mn ak content : String)
    (st : LlamaSettings) (hex : env.fileExists fp = true)
    (hread : env.readFile fp = some content) :
    (env.promptFileExists = false →
      (generate_quiz env fp mn ak st).1 = .error .promptFileNotFound ∧
        ∀ e ∈ (generate_quiz env fp mn ak st).2, isModelCall e = false) ∧
    (∀ pm, env.promptFileExists = true → env.promptLoad = some pm →
      pm "quiz_generation_prompt" = none →
      (generate_quiz env fp mn ak st).1 = .error .missingPromptKey ∧
        ∀ e ∈ (generate_quiz env fp mn ak st).2, isModelCall e = false) := by
  constructor
  · intro hpf
    by_cases hak : ak = "" <;>
      simp [generate_quiz, load_prompts, setup_llama_index, hex, hread, hpf, hak, isModelCall]
  · intro pm hpf hpl hkey
    by_cases hak : ak = "" <;>
      simp [generate_quiz, load_prompts, setup_llama_index, hex, hread, hpf, hpl, hkey,
        hak, isModelCall]


/-- Witness for C9 at a concrete input. -/
theorem C9_missing_prompt_fatal_no_model_call_witness :
    noPromptEnv.fileExists "a.py" = true ∧ noPromptEnv.readFile "a.py" = some "print(1)" ∧
      noPromptEnv.promptFileExists = false ∧
      ((generate_quiz noPromptEnv "a.py" "m" "k" initSettings).1 = .error .promptFileNotFound ∧
        ∀ e ∈ (generate_quiz noPromptEnv "a.py" "m" "k" initSettings).2,
          isModelCall e = false) :=
  ⟨rfl, rfl, rfl,
    (C9_missing_prompt_fatal_no_model_call noPromptEnv "a.py" "m" "k" "print(1)"
      initSettings rfl rfl).1 rfl⟩

lemma setup_llama_index_llm_independent (env : Env) (g : String → String)
    (a b c d : String) (s : LlamaSettings) :
    setup_llama_index { env with llmRespond := g } a b c d s =
      setup_llama_index env a b c d s := rfl

lemma load_prompts_llm_independent (env : Env) (g : String → String) :
    load_prompts { env with llmRespond := g } = load_prompts env := rfl

/-- The outcome (success/exit status and resulting settings) of
`generate_quiz` does not depend on the reply of the model; the reply reaches
only standard output. -/
lemma generate_quiz_fst_llm_independent (env : Env) (g : String → String)
    (fp mn ak : String) (st : LlamaSettings) :
    (generate_quiz { env with llmRespond := g } fp mn ak st).1 =
      (generate_quiz env fp mn ak st).1 := by
  simp only [generate_quiz, setup_llama_index_llm_independent, load_prompts_llm_independent]
  repeat' split
  all_goals rfl

/-- C10: every response body the endpoint produces is the request object
itself — echoing back the supplied `api_key` verbatim — and the generated
quiz text is never included in the response: the produced response is
independent of the reply of the model. -/
theorem C10_http_response_echoes_request (env : Env) (req : ServerRequest)
    (st : LlamaSettings) :
    (∀ resp, (read_root env req st).1 = .ok resp →
      resp.1 = req ∧ resp.1.api_key = req.api_key) ∧
    (∀ g : String → String,
      (read_root { env with llmRespond := g } req st).1 = (read_root env req st).1) := by
  constructor
  · intro resp h
    unfold read_root at h
    rcases hg : generate_quiz env req.file_path req.model_name req.api_key st with ⟨r, evs⟩
    rw [hg] at h
    cases r with
    | error e => simp at h
    | ok st1 =>
      simp only at h
      cases h
      exact ⟨rfl, rfl⟩
  · intro g
    unfold read_root
    have hind := generate_quiz_fst_llm_independent env g req.file_path req.model_name req.api_key st
    rcases hg : generate_quiz env req.file_path req.model_name req.api_key st with ⟨r, evs⟩
    rcases hg2 : generate_quiz { env with llmRespond := g } req.file_path req.model_name
        req.api_key st with ⟨r2, evs2⟩
    rw [hg, hg2] at hind
    simp only at hind
    subst hind
    cases r2 <;> rfl

/-! ## Claims C1, C3, C4 -/


/-- Counterexample to C1: an HTTP invocation with no API key anywhere
(request `api_key` empty, `LLM_API_KEY` unset) does not fail with a
configuration error at all — it checks and reads the target file and even
performs the model call (with no configured client), so the failure-before-
filesystem-access property is violated on the HTTP entry point. -/
theorem C1_http_no_key_counterexample :
    (read_root happyEnv ⟨"proj/code.py", "u", "m", ""⟩ initSettings).1 =
        .ok (⟨"proj/code.py", "u", "m", ""⟩, initSettings) ∧
      Ev.fsExists "proj/code.py" ∈
        (read_root happyEnv ⟨"proj/code.py", "u", "m", ""⟩ initSettings).2 ∧
      Ev.fsRead "proj/code.py" ∈
        (read_root happyEnv ⟨"proj/code.py", "u", "m", ""⟩ initSettings).2 ∧
      Ev.modelCall none "PROMPT" ∈
        (read_root happyEnv ⟨"proj/code.py", "u", "m", ""⟩ initSettings).2 :=
  ⟨rfl, by decide, by decide, by decide⟩

/-- C1 (amended): for every CLI invocation in which no API key is supplied
as an argument and none is present in the environment, the run fails with
the missing-api-key configuration error before any filesystem access and
before any model call; the HTTP entry point performs no such up-front
check. -/
theorem C1_cli_no_key_fails_before_fs (env : Env)
    (file model embedding base_url : String) (henv : env.envApiKey = "") :
    (cliMain env file model embedding "" base_url).1 = .error .missingApiKey ∧
      ∀ e ∈ (cliMain env file model embedding "" base_url).2,
        isFsEvent e = false ∧ isModelCall e = false := by
  simp [cliMain, setup_llama_index, henv, isFsEvent, isModelCall]

/-- Witness for C1 (amended) at a concrete input. -/
theorem C1_cli_no_key_fails_before_fs_witness :
    happyEnv.envApiKey = "" ∧
      ((cliMain happyEnv "proj/code.py" "m" "emb" "" "").1 = .error .missingApiKey ∧
        ∀ e ∈ (cliMain happyEnv "proj/code.py" "m" "emb" "" "").2,
          isFsEvent e = false ∧ isModelCall e = false) :=
  ⟨rfl, C1_cli_no_key_fails_before_fs happyEnv "proj/code.py" "m" "emb" "" rfl⟩

/-- Counterexample to C3: invocations are not stateless. A first HTTP
invocation that passes api key `KEY1` overwrites the process-global
`Settings`; a second invocation that omits the key then behaves
differently depending on what ran before — its model call is issued with
the configuration (including `KEY1`) written by the first invocation. -/
theorem C3_shared_settings_counterexample :
    (read_root happyEnv ⟨"proj/code.py", "u", "m", "KEY1"⟩ initSettings).1 =
        .ok (⟨"proj/code.py", "u", "m", "KEY1"⟩,
          ⟨some ⟨"m", "KEY1", DEFAULT_BASE_URL⟩, none⟩) ∧
      (read_root happyEnv ⟨"proj/code.py", "u", "m", ""⟩
          ⟨some ⟨"m", "KEY1", DEFAULT_BASE_URL⟩, none⟩).2 ≠
        (read_root happyEnv ⟨"proj/code.py", "u", "m", ""⟩ initSettings).2 ∧
      Ev.modelCall (some ⟨"m", "KEY1", DEFAULT_BASE_URL⟩) "PROMPT" ∈
        (read_root happyEnv ⟨"proj/code.py", "u", "m", ""⟩
          ⟨some ⟨"m", "KEY1", DEFAULT_BASE_URL⟩, none⟩).2 :=
  ⟨rfl, by decide, by decide⟩

/-- C3 (amended): the chunk index and retriever are rebuilt fresh on every
call (the per-call indexing event), but the model configuration lives in
the process-global mutable `Settings`: a call that omits the api key
performs its model call with whatever configuration is already stored,
while a call that passes a key overwrites the stored configuration. -/
theorem C3_settings_shared_across_invocations (env : Env)
    (fp mn ak content p : String) (pm : String → Option String) (st : LlamaSettings)
    (hex : env.fileExists fp = true) (hread : env.readFile fp = some content)
    (hpf : env.promptFileExists = true) (hpl : env.promptLoad = some pm)
    (hkey : pm "quiz_generation_prompt" = some p) (hp : p ≠ "") :
    Ev.bm25Index ∈ (generate_quiz env fp mn ak st).2 ∧
      (ak = "" → Ev.modelCall st.llm p ∈ (generate_quiz env fp mn ak st).2) ∧
      (ak ≠ "" → (generate_quiz env fp mn ak st).1 =
        .ok ⟨some ⟨(if mn = "" then DEFAULT_LLM_MODEL else mn), ak,
          (if env.envBaseUrl = "" then DEFAULT_BASE_URL else env.envBaseUrl)⟩, none⟩) := by
  refine ⟨?_, ?_, ?_⟩
  · by_cases hak : ak = "" <;>
      simp [generate_quiz, load_prompts, setup_llama_index, hex, hread, hpf, hpl, hkey,
        hp, hak]
  · intro hak
    simp [generate_quiz, load_prompts, setup_llama_index, hex, hread, hpf, hpl, hkey,
      hp, hak]
  · intro hak
    simp [generate_quiz, load_prompts, setup_llama_index, hex, hread, hpf, hpl, hkey,
      hp, hak]

/-- Witness for C3 (amended) at concrete inputs, exercising both the
key-omitted and the key-passed cases. -/
theorem C3_settings_shared_across_invocations_witness :
    (Ev.modelCall (some ⟨"m", "OLD", "b"⟩) "PROMPT" ∈
        (generate_quiz happyEnv "proj/code.py" "m" "" ⟨some ⟨"m", "OLD", "b"⟩, none⟩).2) ∧
      (generate_quiz happyEnv "proj/code.py" "m" "KEY1" initSettings).1 =
        .ok ⟨some ⟨"m", "KEY1", DEFAULT_BASE_URL⟩, none⟩ :=
  ⟨(C3_settings_shared_across_invocations happyEnv "proj/code.py" "m" ""
      "def add(a, b): return a + b" "PROMPT" _ ⟨some ⟨"m", "OLD", "b"⟩, none⟩
      rfl rfl rfl rfl rfl (by decide)).2.1 rfl,
    by
      have h := (C3_settings_shared_across_invocations happyEnv "proj/code.py" "m" "KEY1"
        "def add(a, b): return a + b" "PROMPT" _ initSettings
        rfl rfl rfl rfl rfl (by decide)).2.2 (by decide)
      simpa using h⟩

/-- Counterexample to C4: a successful HTTP invocation does not render the
quiz text to the response body — the body is the echoed request, none of
whose fields is the quiz text; the quiz (with its banner) goes to the
standard output of the server process instead. -/
theorem C4_http_body_counterexample :
    (read_root happyEnv ⟨"proj/code.py", "u", "m", "k"⟩ initSettings).1 =
        .ok (⟨"proj/code.py", "u", "m", "k"⟩, ⟨some ⟨"m", "k", DEFAULT_BASE_URL⟩, none⟩) ∧
      Ev.printOut "QUIZ_TEXT_42" ∈
        (read_root happyEnv ⟨"proj/code.py", "u", "m", "k"⟩ initSettings).2 ∧
      ("QUIZ_TEXT_42" ≠ "proj/code.py" ∧ "QUIZ_TEXT_42" ≠ "u" ∧
        "QUIZ_TEXT_42" ≠ "m" ∧ "QUIZ_TEXT_42" ≠ "k") :=
  ⟨rfl, by decide, by decide⟩

/-- C4 (amended): for every successful generate-quiz invocation the quiz
text is printed to standard output (for the HTTP entry point this is the
standard output of the server process, not the response body, which is the
echoed request), and that output is framed by the fixed `"="*40` banner
containing the base filename of the target path: the last five prints are
header banner, `OWNERSHIP QUIZ FOR: <basename>`, banner, the model
reply, banner. -/
theorem C4_stdout_banner_frames_quiz (env : Env) (fp mn ak content p : String)
    (pm : String → Option String) (st : LlamaSettings)
    (hex : env.fileExists fp = true) (hread : env.readFile fp = some content)
    (hpf : env.promptFileExists = true) (hpl : env.promptLoad = some pm)
    (hkey : pm "quiz_generation_prompt" = some p) (hp : p ≠ "") :
    ((generate_quiz env fp mn ak st).2).drop ((generate_quiz env fp mn ak st).2.length - 5) =
      [Ev.printOut ("\n" ++ bar),
       Ev.printOut ("OWNERSHIP QUIZ FOR: " ++ basename fp),
       Ev.printOut (bar ++ "\n"),
       Ev.printOut (env.llmRespond p),
       Ev.printOut ("\n" ++ bar)] := by
  by_cases hak : ak = "" <;>
    simp [generate_quiz, load_prompts, setup_llama_index, hex, hread, hpf, hpl, hkey,
      hp, hak]

/-- Witness for C4 (amended) at a concrete input. -/
theorem C4_stdout_banner_frames_quiz_witness :
    ((generate_quiz happyEnv "proj/code.py" "m" "k" initSettings).2).drop
        ((generate_quiz happyEnv "proj/code.py" "m" "k" initSettings).2.length - 5) =
      [Ev.printOut ("\n" ++ bar),
       Ev.printOut ("OWNERSHIP QUIZ FOR: " ++ basename "proj/code.py"),
       Ev.printOut (bar ++ "\n"),
       Ev.printOut (happyEnv.llmRespond "PROMPT"),
       Ev.printOut ("\n" ++ bar)] :=
  C4_stdout_banner_frames_quiz happyEnv "proj/code.py" "m" "k"
    "def add(a, b): return a + b" "PROMPT" _ initSettings rfl rfl rfl rfl rfl (by decide)

/-! ## Claim C2 -/

lemma runTool_snd (env : Env) (t : ToolName) (arg : String) :
    (runTool env t arg).2 =
      [match t with
       | .list_directory => Ev.fsList arg
       | .read_file => Ev.fsRead arg] := by
  cases t <;> rfl

/-- The events of the exploration loop are tool executions only — pure
filesystem accesses; in particular it issues no quiz-producing model call
itself. -/
lemma agentLoop_events_fs (env : Env) (policy : List TranscriptStep → AgentAction) :
    ∀ (fuel : Nat) (transcript : List TranscriptStep),
      ∀ e ∈ (agentLoop env policy fuel transcript).2.2, isFsEvent e = true := by
  intro fuel
  induction fuel with
  | zero =>
    intro tr e he
    simp [agentLoop] at he
  | succ n ih =>
    intro tr e he
    rw [agentLoop] at he
    cases hp : policy tr with
    | finish a =>
      rw [hp] at he
      simp at he
    | callTool t arg =>
      rw [hp] at he
      simp only [List.mem_append] at he
      rcases he with h | h
      · rw [runTool_snd] at h
        cases t <;> simp at h <;> rw [h] <;> rfl
      · exact ih _ e h

lemma fsEvent_not_modelCall (e : Ev) (h : isFsEvent e = true) : isModelCall e = false := by
  cases e <;> simp [isFsEvent, isModelCall] at h ⊢


/-- C2 (settled against the spec-modelled dispatcher and agent, the
repository code for which is not under `src/`): the pipeline is selected
by the type of the target — a file target is processed by the
Loader/Chunker/Retriever pipeline (BM25 indexing, then on success exactly
one model invocation), a directory target by the Exploration Agent (tool
events only, its evidence merged with the template), in each case with
exactly one quiz-producing model invocation. -/
theorem C2_pipeline_selected_by_target_type (env : Env)
    (target mn ak content p : String) (pm : String → Option String)
    (policy : List TranscriptStep → AgentAction) (fuel : Nat) (st : LlamaSettings)
    (hpf : env.promptFileExists = true) (hpl : env.promptLoad = some pm)
    (hkey : pm "quiz_generation_prompt" = some p) (hp : p ≠ "") :
    (env.isDirectory target = false → env.fileExists target = true →
      env.readFile target = some content →
      generate_quiz_dispatch env target mn ak policy fuel st =
          generate_quiz env target mn ak st ∧
        Ev.bm25Index ∈ (generate_quiz_dispatch env target mn ak policy fuel st).2 ∧
        (generate_quiz_dispatch env target mn ak policy fuel st).2.countP isModelCall = 1) ∧
    (env.isDirectory target = true →
      generate_quiz_dispatch env target mn ak policy fuel st =
          generate_quiz_dir env target policy fuel st ∧
        (generate_quiz_dispatch env target mn ak policy fuel st).2.countP isModelCall = 1 ∧
        Ev.bm25Index ∉ (generate_quiz_dispatch env target mn ak policy fuel st).2) := by
  constructor
  · intro hdir hex hread
    have hdisp : generate_quiz_dispatch env target mn ak policy fuel st =
        generate_quiz env target mn ak st := by
      unfold generate_quiz_dispatch
      rw [hdir]
      simp
    refine ⟨hdisp, ?_, ?_⟩ <;> rw [hdisp] <;>
      by_cases hak : ak = "" <;>
        simp [generate_quiz, load_prompts, setup_llama_index, hex, hread, hpf, hpl,
          hkey, hp, hak, isModelCall]
  · intro hdir
    have hdisp : generate_quiz_dispatch env target mn ak policy fuel st =
        generate_quiz_dir env target policy fuel st := by
      unfold generate_quiz_dispatch
      rw [hdir]
      simp
    have hagent := agentLoop_events_fs env policy fuel []
    have hcount : (agentLoop env policy fuel []).2.2.countP isModelCall = 0 :=
      List.countP_eq_zero.mpr (by
        intro e he
        simp [fsEvent_not_modelCall e (hagent e he)])
    have hmem : Ev.bm25Index ∉ (agentLoop env policy fuel []).2.2 := by
      intro hmemb
      have hfs := hagent Ev.bm25Index hmemb
      simp [isFsEvent] at hfs
    refine ⟨hdisp, ?_, ?_⟩ <;> rw [hdisp] <;>
      simp [generate_quiz_dir, load_prompts, hpf, hpl, hkey, List.countP_append,
        hcount, isModelCall, hmem]

/-- Witness for C2 at concrete inputs: a file target runs the retrieval
pipeline, a directory target runs the agent. -/
theorem C2_pipeline_selected_by_target_type_witness :
    (generate_quiz_dispatch happyEnv "proj/code.py" "m" "k"
          (fun _ => AgentAction.finish "done") 5 initSettings =
        generate_quiz happyEnv "proj/code.py" "m" "k" initSettings ∧
      Ev.bm25Index ∈ (generate_quiz_dispatch happyEnv "proj/code.py" "m" "k"
          (fun _ => AgentAction.finish "done") 5 initSettings).2 ∧
      (generate_quiz_dispatch happyEnv "proj/code.py" "m" "k"
          (fun _ => AgentAction.finish "done") 5 initSettings).2.countP isModelCall = 1) ∧
    (generate_quiz_dispatch dirEnv "repo" "m" "k"
          (fun tr => if tr.isEmpty then AgentAction.callTool .list_directory "repo"
            else AgentAction.finish "done") 5 initSettings =
        generate_quiz_dir dirEnv "repo"
          (fun tr => if tr.isEmpty then AgentAction.callTool .list_directory "repo"
            else AgentAction.finish "done") 5 initSettings ∧
      (generate_quiz_dispatch dirEnv "repo" "m" "k"
          (fun tr => if tr.isEmpty then AgentAction.callTool .list_directory "repo"
            else AgentAction.finish "done") 5 initSettings).2.countP isModelCall = 1 ∧
      Ev.bm25Index ∉ (generate_quiz_dispatch dirEnv "repo" "m" "k"
          (fun tr => if tr.isEmpty then AgentAction.callTool .list_directory "repo"
            else AgentAction.finish "done") 5 initSettings).2) :=
  ⟨(C2_pipeline_selected_by_target_type happyEnv "proj/code.py" "m" "k"
      "def add(a, b): return a + b" "PROMPT" _ (fun _ => AgentAction.finish "done") 5
      initSettings rfl rfl rfl (by decide)).1 rfl rfl rfl,
    (C2_pipeline_selected_by_target_type dirEnv "repo" "m" "k"
      "unused" "PROMPT" _
      (fun tr => if tr.isEmpty then AgentAction.callTool .list_directory "repo"
        else AgentAction.finish "done") 5
      initSettings rfl rfl rfl (by decide)).2 rfl⟩

/-- Witness for C10 at a concrete input. -/
theorem C10_http_response_echoes_request_witness :
    (⟨⟨"proj/code.py", "u", "m", "k"⟩, ⟨some ⟨"m", "k", DEFAULT_BASE_URL⟩, none⟩⟩ :
        ServerRequest × LlamaSettings).1 = ⟨"proj/code.py", "u", "m", "k"⟩ ∧
      (⟨⟨"proj/code.py", "u", "m", "k"⟩, ⟨some ⟨"m", "k", DEFAULT_BASE_URL⟩, none⟩⟩ :
        ServerRequest × LlamaSettings).1.api_key =
        (⟨"proj/code.py", "u", "m", "k"⟩ : ServerRequest).api_key :=
  (C10_http_response_echoes_request happyEnv ⟨"proj/code.py", "u", "m", "k"⟩ initSettings).1
    ⟨⟨"proj/code.py", "u", "m", "k"⟩, ⟨some ⟨"m", "k", DEFAULT_BASE_URL⟩, none⟩⟩ rfl
